import Mathlib

/-!
Shallow embedding of the badge LoRa MAC layer.

This file embeds the MAC layer of `firmware/lib/lora_mac.py` (class `LoRaMAC`)
together with the configuration record of `firmware/lib/config.py` (class
`MACConfig`) and proves properties of the embedded code.

Modelling conventions:

* Python integers become `Int` (times, durations, config fields) or `Nat`
  (byte values, lengths, counters).  MicroPython's `time.ticks_ms` wraparound
  is abstracted to a monotone `Int` clock; no property proved here depends on
  tick wraparound.
* Python floats (`phase2_probability`, the 0.05/0.15 jitter factors, the
  `min(1.0 + 0.3*k, 2.5)` multiplier) are modelled as exact rationals `ℚ`;
  `int(x)` is `pyInt` (truncation toward zero).  No property proved here
  depends on binary floating-point rounding.
* Randomness (`urandom.random()`, `urandom.randint(a, b)`) and clock reads
  are passed in explicitly through environment records (`NavEnv`, `SendEnv`);
  theorems that need them constrain the draws by hypotheses matching the
  `randint` ranges of the source.
* The adaptive polling loops of Phase 1 / Phase 2 are embedded as a fold over
  the list of poll results (`PollEvent`) that occur inside the listen window;
  exhausting the list is the window timing out.  The adaptive poll interval
  (11/23/41 ms) only shapes poll timing, which the event list abstracts.
* The radio (`firmware/lib/lora_hal.py`, class `LoRaRadio`) is represented by
  its MAC-visible effects: each `cad()`, `start_rx()` and `send_packet()`
  call is recorded as a `RadioOp` in an operation trace, and the results the
  radio would return come from the environment record.  `send_packet` frames
  a packet as the type tag byte followed by the payload.
* A propagating Python exception (`ValueError` from an out-of-range
  `bytearray` byte, `IndexError` from `payload[4]` on a short list) is the
  `SendOutcome.raised` result, carrying the object state mutated so far.
-/

/-- Packet type tags (`PKT_TYPE_RTS = const(0x01)`). -/
def PKT_TYPE_RTS : Nat := 0x01

/-- Packet type tags (`PKT_TYPE_DATA = const(0x02)`). -/
def PKT_TYPE_DATA : Nat := 0x02

/-- Protocol phase constants of `lora_mac.py`. -/
def PHASE_IDLE : Nat := 0

def PHASE_1_LISTEN : Nat := 1

def PHASE_2_RTS : Nat := 2

def PHASE_3_DATA : Nat := 3

def PHASE_NAV : Nat := 4

/-- The list `PRIME_OFFSETS = [5, 7, 11, 13, 17]`. -/
def PRIME_OFFSETS : List Int := [5, 7, 11, 13, 17]

/-- Indexing `PRIME_OFFSETS[urandom.randint(0, len(PRIME_OFFSETS) - 1)]`: the draw is an
index in `Fin 5`; the default of `getD` is unreachable for such an index. -/
def primeOffset (i : Fin 5) : Int := PRIME_OFFSETS.getD i.val 0

/-- Python `int(x)`: truncation toward zero. -/
def pyInt (q : ℚ) : Int := if 0 ≤ q then Int.floor q else -Int.floor (-q)

/-- The air-time model `LoRaMAC._calculate_toa`: `base_ms + (payload_len * per_byte_ms)` with
`base_ms = 401`, `per_byte_ms = 37`. -/
def calculate_toa (payload_len : Nat) : Int := 401 + (payload_len : Int) * 37

/-- The statistics dictionary `self.stats` of `LoRaMAC.__init__`. -/
structure Stats where
  tx_data : Nat
  tx_rts : Nat
  rx_data : Nat
  rx_rts : Nat
  nav_count : Nat
  cad_detected : Nat
  backoff_count : Nat
deriving DecidableEq, Repr

/-- All counters zero, as initialized by `LoRaMAC.__init__`. -/
def Stats.init : Stats :=
  { tx_data := 0, tx_rts := 0, rx_data := 0, rx_rts := 0,
    nav_count := 0, cad_detected := 0, backoff_count := 0 }

/-- The MAC-relevant fields of `config.MACConfig.__init__` (the radio and app
fields do not enter the MAC logic).  The constructor performs no validation,
so every combination of values is representable. -/
structure MACConfig where
  phase2_probability : ℚ
  backoff_window : Int
  difs_ms : Int
  use_cad : Bool
deriving DecidableEq, Repr

/-- The `kwargs` defaults of `MACConfig.__init__`:
`P = 0.1`, `W = 7`, `difs_ms = 400`, `use_cad = True`. -/
def MACConfig.defaults : MACConfig :=
  { phase2_probability := 1/10, backoff_window := 7, difs_ms := 400,
    use_cad := true }

/-- The mutable object state of class `LoRaMAC` (the radio handle lives in the
environment; the RX callback is never written by `send_data` and is omitted). -/
structure LoRaMAC where
  config : MACConfig
  phase : Nat
  nav_until : Int
  stats : Stats
  consecutive_navs : Nat
  difs : Int
  w : Int
  p : ℚ
  rts_toa : Int
  phase1_duration : Int
deriving DecidableEq, Repr

/-- The constructor `LoRaMAC.__init__`: copies the config fields and computes
`rts_toa = toa(5)` and `phase1_duration = w * difs + rts_toa`.
No validation of any kind is performed, mirroring the source. -/
def LoRaMAC.init (config : MACConfig) : LoRaMAC :=
  { config := config
    phase := PHASE_IDLE
    nav_until := 0
    stats := Stats.init
    consecutive_navs := 0
    difs := config.difs_ms
    w := config.backoff_window
    p := config.phase2_probability
    rts_toa := calculate_toa 5
    phase1_duration := config.backoff_window * config.difs_ms + calculate_toa 5 }

/-- The dictionary returned by `LoRaRadio.read_packet`:
`{'type': ..., 'payload': ..., 'rssi': ..., 'snr': ...}`. -/
structure Packet where
  type : Nat
  payload : List Nat
  rssi : Int
  snr : ℚ
deriving DecidableEq, Repr

/-- An on-air frame as assembled by `LoRaRadio.send_packet`:
`bytes([pkt_type]) + data`. -/
structure Frame where
  tag : Nat
  payload : List Nat
deriving DecidableEq, Repr

/-- MAC-visible radio operations, in the order the MAC issues them. -/
inductive RadioOp where
  | cad (result : Bool)
  | start_rx (timeout_ms : Int)
  | tx (frame : Frame)
deriving DecidableEq, Repr

/-- The transmit operations of a radio-operation trace. -/
def txFrames (ops : List RadioOp) : List Frame :=
  ops.filterMap fun op =>
    match op with
    | RadioOp.tx f => some f
    | _ => none

/-- One poll of the listen loop: `rx_done()` was false, or `read_packet()`
returned `None` (CRC failure / empty buffer), or it returned a packet. -/
inductive PollEvent where
  | noRx
  | rxNone
  | rxPkt (pkt : Packet)
deriving DecidableEq, Repr

/-- The shared body of the Phase 1 / Phase 2 listen loops: scan the polls
occurring inside the listen window for the first packet whose `['type']` is
RTS or DATA; packets of any other type (and `None` reads) fall through both
`if`/`elif` branches and the loop continues.  An exhausted list is the
`ticks_diff(...) < duration` loop condition running out: timeout. -/
def poll_for_packet : List PollEvent → Option Packet
  | [] => none
  | PollEvent.noRx :: rest => poll_for_packet rest
  | PollEvent.rxNone :: rest => poll_for_packet rest
  | PollEvent.rxPkt pkt :: rest =>
      if pkt.type = PKT_TYPE_RTS ∨ pkt.type = PKT_TYPE_DATA then some pkt
      else poll_for_packet rest

/-- The 5-byte RTS payload built in `_phase2_send_rts`:
`bytearray([0xCA, 0xFE, 0xBA, 0xBE, data_len])` (valid when `data_len ≤ 255`). -/
def rts_payload (data_len : Nat) : List Nat := [0xCA, 0xFE, 0xBA, 0xBE, data_len]

/-- The observer-side decode in `_enter_nav_from_rts`:
`data_len = rts_packet['payload'][4]`; `none` is Python's `IndexError`. -/
def rts_data_len (payload : List Nat) : Option Nat := payload.get? 4

/-- The Python error conditions reachable inside `send_data`. -/
inductive PyError where
  | valueError
  | indexError
deriving DecidableEq, Repr

/-- The result of `send_data`: the Python `True` (started sending) /
`False` (deferred) return value, or a propagating exception. -/
inductive SendOutcome where
  | sent
  | deferred
  | raised (e : PyError)
deriving DecidableEq, Repr

/-- Clock reading and random draws consumed by one NAV-arming call
(`_enter_nav_from_rts`, `_enter_nav_random` or `_defer_random`). -/
structure NavEnv where
  /-- Value of `time.ticks_ms()` at arming time. -/
  now : Int
  /-- the `urandom.randint(0, len(PRIME_OFFSETS) - 1)` draw. -/
  prime : Fin 5
  /-- For `_enter_nav_from_rts` only: the
  `urandom.randint(int(nav_duration * 0.05), int(nav_duration * 0.15))` draw. -/
  jitter : Int
  /-- For `_enter_nav_random`: the `urandom.randint(int(max_toa*0.8), int(max_toa*1.2))`
  draw; `_defer_random`: the `urandom.randint(phase1_duration, phase1_duration*3)`
  draw. -/
  rand_dur : Int
deriving DecidableEq, Repr

/-- The congestion multiplier `min(1.0 + (consecutive_navs * 0.3), 2.5)`
computed identically in all three deferral paths. -/
def backoff_multiplier (consecutive_navs : Nat) : ℚ :=
  min (1 + (consecutive_navs : ℚ) * (3/10)) (5/2)

/-- The deferral path `LoRaMAC._enter_nav_from_rts`.  `rts_packet['payload'][4]` raises
`IndexError` on a payload shorter than 5 bytes, hence the `Except`. -/
def enter_nav_from_rts (mac : LoRaMAC) (rts_packet : Packet) (e : NavEnv) :
    Except PyError LoRaMAC :=
  match rts_data_len rts_packet.payload with
  | none => Except.error PyError.indexError
  | some data_len =>
      let data_toa := calculate_toa data_len
      let nav1 := mac.phase1_duration + mac.w * mac.difs + data_toa
      let nav2 := nav1 + primeOffset e.prime
      -- jitter = urandom.randint(int(nav2 * 0.05), int(nav2 * 0.15))
      let nav3 := nav2 + e.jitter
      let nav4 :=
        if 0 < mac.consecutive_navs then
          pyInt ((nav3 : ℚ) * backoff_multiplier mac.consecutive_navs)
        else nav3
      Except.ok
        { mac with
          consecutive_navs := mac.consecutive_navs + 1
          nav_until := e.now + nav4
          phase := PHASE_NAV
          stats := { mac.stats with nav_count := mac.stats.nav_count + 1 } }

/-- The deferral path `LoRaMAC._enter_nav_random`: `max_toa = toa(255)`;
`nav = randint(int(max_toa*0.8), int(max_toa*1.2))` is the `e.rand_dur` draw. -/
def enter_nav_random (mac : LoRaMAC) (e : NavEnv) : LoRaMAC :=
  let nav1 := e.rand_dur + primeOffset e.prime
  let nav2 :=
    if 0 < mac.consecutive_navs then
      pyInt ((nav1 : ℚ) * backoff_multiplier mac.consecutive_navs)
    else nav1
  { mac with
    consecutive_navs := mac.consecutive_navs + 1
    nav_until := e.now + nav2
    phase := PHASE_NAV
    stats := { mac.stats with nav_count := mac.stats.nav_count + 1 } }

/-- The deferral path `LoRaMAC._defer_random`: `defer = randint(phase1_duration, phase1_duration*3)`
is the `e.rand_dur` draw.  Note: the source sets `phase = PHASE_NAV` and arms
`nav_until` but — unlike the two `_enter_nav_*` paths — never increments
`stats['nav_count']`. -/
def defer_random (mac : LoRaMAC) (e : NavEnv) : LoRaMAC :=
  let d1 := e.rand_dur + primeOffset e.prime
  let d2 :=
    if 0 < mac.consecutive_navs then
      pyInt ((d1 : ℚ) * backoff_multiplier mac.consecutive_navs)
    else d1
  { mac with
    consecutive_navs := mac.consecutive_navs + 1
    nav_until := e.now + d2
    phase := PHASE_NAV }

/-- The check `LoRaMAC._in_nav`: `self.nav_until > time.ticks_ms()`. -/
def in_nav (mac : LoRaMAC) (now : Int) : Bool :=
  if mac.nav_until > now then true else false

/-- Everything the environment (clock, entropy source, radio) supplies to a
single `send_data` call. -/
structure SendEnv where
  /-- Value of `time.ticks_ms()` at the `_in_nav` check. -/
  now0 : Int
  /-- the value `radio.cad()` would return (consulted only when `use_cad`). -/
  cad_result : Bool
  /-- draws for `_defer_random` on the CAD-positive path. -/
  cad_nav : NavEnv
  /-- the `urandom.random()` coin in `[0, 1)`. -/
  coin : ℚ
  /-- the poll results inside the Phase 1 listen window. -/
  phase1_events : List PollEvent
  /-- draws for the NAV entry triggered from Phase 1, if any. -/
  phase1_nav : NavEnv
  /-- Phase 2 `urandom.randint(0, self.w)` backoff draw (sleep only). -/
  p2_backoff_slots : Int
  /-- Phase 2 prime-offset index for the backoff sleep. -/
  p2_prime : Fin 5
  /-- the Boolean `radio.send_packet` returns for the RTS (the source
  discards it). -/
  p2_tx_ok : Bool
  /-- the poll results inside the Phase 2 listen window. -/
  phase2_events : List PollEvent
  /-- draws for the NAV entry triggered from Phase 2, if any. -/
  phase2_nav : NavEnv
  /-- Phase 3 `urandom.randint(0, self.w)` backoff draw (sleep only). -/
  p3_backoff_slots : Int
  /-- Phase 3 prime-offset index for the backoff sleep. -/
  p3_prime : Fin 5
  /-- the Boolean `radio.send_packet` returns for the DATA frame (the source
  discards it). -/
  p3_tx_ok : Bool
deriving DecidableEq, Repr

/-- Phase 3, `LoRaMAC._phase3_send_data`.  The backoff
`urandom.randint(0, w) * difs + PRIME_OFFSETS[...]` (draws `e.p3_backoff_slots`,
`e.p3_prime`) is slept, then `backoff_count` is incremented, the DATA frame is
transmitted, `tx_data` is incremented, `consecutive_navs` is reset and the
call returns `True`.  The Boolean result of `radio.send_packet`
(`e.p3_tx_ok`) is not examined by the source. -/
def phase3_send_data (mac0 : LoRaMAC) (data : List Nat) (e : SendEnv) :
    LoRaMAC × SendOutcome × List RadioOp :=
  let mac1 := { mac0 with phase := PHASE_3_DATA }
  -- time.sleep_ms(backoff)
  let mac2 :=
    { mac1 with stats :=
        { mac1.stats with backoff_count := mac1.stats.backoff_count + 1 } }
  -- self.radio.send_packet(data, PKT_TYPE_DATA)  (return value dropped)
  let mac3 :=
    { mac2 with stats := { mac2.stats with tx_data := mac2.stats.tx_data + 1 } }
  let mac4 := { mac3 with consecutive_navs := 0, phase := PHASE_IDLE }
  (mac4, SendOutcome.sent, [RadioOp.tx { tag := PKT_TYPE_DATA, payload := data }])

/-- Phase 2, `LoRaMAC._phase2_send_rts`.  After the backoff sleep and its
`backoff_count` increment, `bytearray([0xCA, 0xFE, 0xBA, 0xBE, data_len])`
raises `ValueError` when `data_len > 255`; otherwise the RTS is transmitted
(`tx_rts` incremented, `e.p2_tx_ok` dropped), the receiver is re-armed for
`phase1_duration`, and the listen loop either defers on an observed RTS/DATA
or falls through to Phase 3. -/
def phase2_send_rts (mac0 : LoRaMAC) (pending_data : List Nat) (e : SendEnv) :
    LoRaMAC × SendOutcome × List RadioOp :=
  let mac1 := { mac0 with phase := PHASE_2_RTS }
  -- backoff = urandom.randint(0, w) * difs + PRIME_OFFSETS[...]; sleep_ms
  let mac2 :=
    { mac1 with stats :=
        { mac1.stats with backoff_count := mac1.stats.backoff_count + 1 } }
  let data_len := pending_data.length
  if data_len ≤ 255 then
    let rts_pkt := rts_payload data_len
    -- self.radio.send_packet(rts_packet, PKT_TYPE_RTS)  (return value dropped)
    let mac3 :=
      { mac2 with stats := { mac2.stats with tx_rts := mac2.stats.tx_rts + 1 } }
    let listen_duration := mac3.phase1_duration
    let ops : List RadioOp :=
      [RadioOp.tx { tag := PKT_TYPE_RTS, payload := rts_pkt },
       RadioOp.start_rx listen_duration]
    match poll_for_packet e.phase2_events with
    | some pkt =>
        if pkt.type = PKT_TYPE_RTS then
          let mac4 :=
            { mac3 with stats :=
                { mac3.stats with rx_rts := mac3.stats.rx_rts + 1 } }
          match enter_nav_from_rts mac4 pkt e.phase2_nav with
          | Except.ok m => (m, SendOutcome.deferred, ops)
          | Except.error err => (mac4, SendOutcome.raised err, ops)
        else
          -- pkt['type'] == PKT_TYPE_DATA; delivered to the RX callback
          let mac4 :=
            { mac3 with stats :=
                { mac3.stats with rx_data := mac3.stats.rx_data + 1 } }
          (enter_nav_random mac4 e.phase2_nav, SendOutcome.deferred, ops)
    | none =>
        let r := phase3_send_data mac3 pending_data e
        (r.1, r.2.1, ops ++ r.2.2)
  else
    (mac2, SendOutcome.raised PyError.valueError, [])

/-- Phase 1, `LoRaMAC._phase1_listen_rts`: arm RX for `phase1_duration`, poll; an
observed RTS enters NAV via `_enter_nav_from_rts`, an observed DATA is
delivered to the callback and enters NAV via `_enter_nav_random`, a timeout
falls through to `_phase2_send_rts`. -/
def phase1_listen_rts (mac0 : LoRaMAC) (pending_data : List Nat) (e : SendEnv) :
    LoRaMAC × SendOutcome × List RadioOp :=
  let mac1 := { mac0 with phase := PHASE_1_LISTEN }
  let ops : List RadioOp := [RadioOp.start_rx mac1.phase1_duration]
  match poll_for_packet e.phase1_events with
  | some pkt =>
      if pkt.type = PKT_TYPE_RTS then
        let mac2 :=
          { mac1 with stats :=
              { mac1.stats with rx_rts := mac1.stats.rx_rts + 1 } }
        match enter_nav_from_rts mac2 pkt e.phase1_nav with
        | Except.ok m => (m, SendOutcome.deferred, ops)
        | Except.error err => (mac2, SendOutcome.raised err, ops)
      else
        -- pkt['type'] == PKT_TYPE_DATA; delivered to the RX callback
        let mac2 :=
          { mac1 with stats :=
              { mac1.stats with rx_data := mac1.stats.rx_data + 1 } }
        (enter_nav_random mac2 e.phase1_nav, SendOutcome.deferred, ops)
  | none =>
      let r := phase2_send_rts mac1 pending_data e
      (r.1, r.2.1, ops ++ r.2.2)

/-- The entry point `LoRaMAC.send_data`: the NAV short-circuit, the optional CAD check
(`self.config.use_cad and self.radio.cad()` — `cad()` is only called when
`use_cad` is set), then the coin flip between Phase 2 (when
`priority == "high"` or `urandom.random() < p`) and Phase 1. -/
def send_data (mac : LoRaMAC) (data : List Nat) (priority : String)
    (e : SendEnv) : LoRaMAC × SendOutcome × List RadioOp :=
  if in_nav mac e.now0 then
    (mac, SendOutcome.deferred, [])
  else
    let cad_ops : List RadioOp :=
      if mac.config.use_cad then [RadioOp.cad e.cad_result] else []
    if mac.config.use_cad && e.cad_result then
      let mac1 :=
        { mac with stats :=
            { mac.stats with cad_detected := mac.stats.cad_detected + 1 } }
      (defer_random mac1 e.cad_nav, SendOutcome.deferred, cad_ops)
    else if priority = "high" ∨ e.coin < mac.p then
      let r := phase2_send_rts mac data e
      (r.1, r.2.1, cad_ops ++ r.2.2)
    else
      let r := phase1_listen_rts mac data e
      (r.1, r.2.1, cad_ops ++ r.2.2)

/-! ## Concrete fixtures used by witnesses and counterexamples -/

/-- A MAC constructed from the default configuration. -/
def macDefault : LoRaMAC := LoRaMAC.init MACConfig.defaults

/-- Trivial NAV draws. -/
def navEnvZero : NavEnv := { now := 0, prime := 0, jitter := 0, rand_dur := 0 }

/-- A quiet-channel environment: CAD negative, no packet observed in either
listen window, and both `send_packet` calls time out (return `False`). -/
def envQuietTxFail : SendEnv :=
  { now0 := 0, cad_result := false, cad_nav := navEnvZero, coin := 1/2,
    phase1_events := [], phase1_nav := navEnvZero,
    p2_backoff_slots := 3, p2_prime := 0, p2_tx_ok := false,
    phase2_events := [], phase2_nav := navEnvZero,
    p3_backoff_slots := 3, p3_prime := 0, p3_tx_ok := false }

/-- An observed RTS announcing a 16-byte DATA frame (scenario 2 of the spec:
`CA FE BA BE 10`). -/
def pktRts16 : Packet :=
  { type := PKT_TYPE_RTS, payload := rts_payload 16, rssi := -80, snr := 8 }

/-- NAV draws for the C4 witness: jitter 359 = `int(7184 * 0.05)`, the lower
end of the source's jitter range. -/
def eC4 : NavEnv := { now := 100, prime := 0, jitter := 359, rand_dur := 0 }

/-- The state `_enter_nav_from_rts` produces from `macDefault`, `pktRts16`
and `eC4` (total by construction; the fallback branch is unreachable). -/
def mC4 : LoRaMAC :=
  match enter_nav_from_rts macDefault pktRts16 eC4 with
  | Except.ok m => m
  | Except.error _ => macDefault

/-- The state `_enter_nav_from_rts` produces from `macDefault`, `pktRts16`
and `navEnvZero` (the fallback is unreachable: the payload has 5 bytes). -/
def macNavRts : LoRaMAC :=
  (enter_nav_from_rts macDefault pktRts16 navEnvZero).toOption.getD macDefault

/-- A configuration violating all three validity conditions of the spec:
`W = -1 < 0`, `P = 3 ∉ (0,1]`, `difs_ms = -5 ≤ 0`. -/
def cfgInvalid : MACConfig :=
  { phase2_probability := 3, backoff_window := -1, difs_ms := -5,
    use_cad := false }

/-- Environment in which the radio's CAD reports a busy channel; the
`_defer_random` draw 3386 lies in `[phase1_duration, 3 * phase1_duration]`. -/
def envCadBusy : SendEnv :=
  { envQuietTxFail with
    cad_result := true
    cad_nav := { now := 1000, prime := 0, jitter := 0, rand_dur := 3386 } }

/-- Environment in which a competing RTS is observed during the Phase 2
listen window. -/
def envObsRts : SendEnv :=
  { envQuietTxFail with phase2_events := [PollEvent.rxPkt pktRts16] }

/-! ## Helper lemmas -/

lemma txFrames_append (a b : List RadioOp) :
    txFrames (a ++ b) = txFrames a ++ txFrames b :=
  List.filterMap_append a b _

lemma five_le_primeOffset (i : Fin 5) : 5 ≤ primeOffset i := by
  revert i; decide

lemma one_le_backoff_multiplier (k : Nat) : 1 ≤ backoff_multiplier k := by
  unfold backoff_multiplier
  refine le_min ?_ (by norm_num)
  have h : (0 : ℚ) ≤ (k : ℚ) * (3/10) := by positivity
  linarith

lemma le_pyInt_mul (n : Int) (q : ℚ) (hn : 0 ≤ n) (hq : 1 ≤ q) :
    n ≤ pyInt ((n : ℚ) * q) := by
  have hn' : (0 : ℚ) ≤ (n : ℚ) := by exact_mod_cast hn
  have h0 : (0 : ℚ) ≤ (n : ℚ) * q := mul_nonneg hn' (le_trans zero_le_one hq)
  unfold pyInt
  rw [if_pos h0]
  exact Int.le_floor.mpr (le_mul_of_one_le_right hn' hq)

/-- On the `Sent` path, `_phase2_send_rts` has emitted exactly the RTS and the
DATA frame, and the final state has `consecutive_navs = 0`. -/
lemma phase2_sent_spec (mac : LoRaMAC) (d : List Nat) (e : SendEnv)
    (h : (phase2_send_rts mac d e).2.1 = SendOutcome.sent) :
    (phase2_send_rts mac d e).1.consecutive_navs = 0 ∧
    txFrames (phase2_send_rts mac d e).2.2 =
      [{ tag := PKT_TYPE_RTS, payload := rts_payload d.length },
       { tag := PKT_TYPE_DATA, payload := d }] := by
  by_cases hlen : d.length ≤ 255
  · cases hp : poll_for_packet e.phase2_events with
    | none =>
        constructor
        · simp [phase2_send_rts, hlen, hp, phase3_send_data]
        · simp [phase2_send_rts, hlen, hp, phase3_send_data, txFrames]
    | some pkt =>
        exfalso
        by_cases ht : pkt.type = PKT_TYPE_RTS
        · cases hN : enter_nav_from_rts
            { mac with
              phase := PHASE_2_RTS
              stats :=
                { mac.stats with
                  backoff_count := mac.stats.backoff_count + 1
                  tx_rts := mac.stats.tx_rts + 1
                  rx_rts := mac.stats.rx_rts + 1 } } pkt e.phase2_nav with
          | ok m => simp [phase2_send_rts, hlen, hp, ht, hN] at h
          | error err => simp [phase2_send_rts, hlen, hp, ht, hN] at h
        · simp [phase2_send_rts, hlen, hp, ht] at h
  · exfalso
    simp [phase2_send_rts, hlen] at h

lemma txFrames_nil : txFrames [] = [] := rfl

lemma txFrames_cons_cad (r : Bool) (l : List RadioOp) :
    txFrames (RadioOp.cad r :: l) = txFrames l := rfl

lemma txFrames_cons_start_rx (t : Int) (l : List RadioOp) :
    txFrames (RadioOp.start_rx t :: l) = txFrames l := rfl

lemma txFrames_cons_tx (f : Frame) (l : List RadioOp) :
    txFrames (RadioOp.tx f :: l) = f :: txFrames l := rfl

lemma txFrames_cadOps (c r : Bool) :
    txFrames (if c = true then [RadioOp.cad r] else []) = [] := by
  cases c <;> rfl

/-- On the `Sent` path, the whole `send_data` call has emitted exactly the RTS
and the DATA frame, and the final state has `consecutive_navs = 0`. -/
lemma send_sent_spec (mac : LoRaMAC) (d : List Nat) (priority : String)
    (e : SendEnv) (h : (send_data mac d priority e).2.1 = SendOutcome.sent) :
    (send_data mac d priority e).1.consecutive_navs = 0 ∧
    txFrames (send_data mac d priority e).2.2 =
      [{ tag := PKT_TYPE_RTS, payload := rts_payload d.length },
       { tag := PKT_TYPE_DATA, payload := d }] := by
  by_cases hnav : in_nav mac e.now0
  · exfalso; simp [send_data, hnav] at h
  · cases hcad : (mac.config.use_cad && e.cad_result) with
    | true => exfalso; simp [send_data, hnav, hcad] at h
    | false =>
      by_cases hcoin : priority = "high" ∨ e.coin < mac.p
      · have hEq : send_data mac d priority e =
            ((phase2_send_rts mac d e).1, (phase2_send_rts mac d e).2.1,
              (if mac.config.use_cad = true then [RadioOp.cad e.cad_result]
               else []) ++ (phase2_send_rts mac d e).2.2) := by
          simp [send_data, hnav, hcad, hcoin]
        rw [hEq] at h
        have hspec := phase2_sent_spec mac d e h
        rw [hEq]
        refine ⟨hspec.1, ?_⟩
        rw [txFrames_append, txFrames_cadOps, List.nil_append]
        exact hspec.2
      · cases hp1 : poll_for_packet e.phase1_events with
        | some pkt =>
            exfalso
            by_cases ht : pkt.type = PKT_TYPE_RTS
            · cases hN : enter_nav_from_rts
                { mac with
                  phase := PHASE_1_LISTEN
                  stats := { mac.stats with rx_rts := mac.stats.rx_rts + 1 } }
                pkt e.phase1_nav with
              | ok m =>
                  simp [send_data, phase1_listen_rts, hnav, hcad, hcoin, hp1,
                    ht, hN] at h
              | error err =>
                  simp [send_data, phase1_listen_rts, hnav, hcad, hcoin, hp1,
                    ht, hN] at h
            · simp [send_data, phase1_listen_rts, hnav, hcad, hcoin, hp1,
                ht] at h
        | none =>
            have hEq : send_data mac d priority e =
                ((phase2_send_rts { mac with phase := PHASE_1_LISTEN } d e).1,
                 (phase2_send_rts { mac with phase := PHASE_1_LISTEN } d e).2.1,
                 (if mac.config.use_cad = true then [RadioOp.cad e.cad_result]
                  else []) ++
                   (RadioOp.start_rx
                      ({ mac with phase := PHASE_1_LISTEN } : LoRaMAC).phase1_duration ::
                    (phase2_send_rts { mac with phase := PHASE_1_LISTEN } d
                        e).2.2)) := by
              simp [send_data, phase1_listen_rts, hnav, hcad, hcoin, hp1]
            rw [hEq] at h
            have hspec :=
              phase2_sent_spec { mac with phase := PHASE_1_LISTEN } d e h
            rw [hEq]
            refine ⟨hspec.1, ?_⟩
            rw [txFrames_append, txFrames_cadOps, List.nil_append,
              txFrames_cons_start_rx]
            exact hspec.2

/-! ## Claims -/

/-- C1 (counterexample): a `send` whose Phase-3 DATA transmission times out
(`send_packet` returns `False`; here `envQuietTxFail.p3_tx_ok = false`) still
reports `Sent` — the source never examines the Boolean `send_packet` returns,
so the claimed `Deferred` result does not happen. -/
theorem c1_tx_timeout_still_reports_sent_cex :
    envQuietTxFail.p3_tx_ok = false ∧
    (send_data macDefault [104, 105] "high" envQuietTxFail).2.1 =
      SendOutcome.sent := by
  constructor
  · rfl
  · decide

/-- C1 (amended): `_phase3_send_data` returns `True` (`Sent`)
unconditionally — in particular also when the radio's `send_packet` times out
and returns `False`, a result the source discards. -/
theorem c1_phase3_sent_regardless_of_tx_result (mac : LoRaMAC)
    (data : List Nat) (e : SendEnv) :
    (phase3_send_data mac data e).2.1 = SendOutcome.sent := rfl

/-- C2 (counterexample): a CAD-positive deferral (`_defer_random`) arms
`nav_until` (here to 4391) and increments `consecutive_navs`, yet leaves
`nav_count` at 0 — so `nav_count` does not count every arming of `nav_until`. -/
theorem c2_cad_defer_skips_nav_count_cex :
    (send_data macDefault [120] "normal" envCadBusy).2.1 =
      SendOutcome.deferred ∧
    (send_data macDefault [120] "normal" envCadBusy).1.consecutive_navs = 1 ∧
    (send_data macDefault [120] "normal" envCadBusy).1.nav_until = 4391 ∧
    (send_data macDefault [120] "normal" envCadBusy).1.stats.nav_count = 0 := by
  refine ⟨by decide, by decide, by decide, by decide⟩

/-- C2 (amended): only the two `_enter_nav_*` deferral paths (RTS heard,
unexpected DATA heard) increment `nav_count` by exactly one; the CAD-positive
path `_defer_random` arms `nav_until` without touching `nav_count`. -/
theorem c2_nav_count_per_path (mac : LoRaMAC) (pkt : Packet) (e : NavEnv)
    (m : LoRaMAC) (h : enter_nav_from_rts mac pkt e = Except.ok m) :
    m.stats.nav_count = mac.stats.nav_count + 1 ∧
    (enter_nav_random mac e).stats.nav_count = mac.stats.nav_count + 1 ∧
    (defer_random mac e).stats.nav_count = mac.stats.nav_count := by
  refine ⟨?_, rfl, rfl⟩
  unfold enter_nav_from_rts at h
  cases hL : rts_data_len pkt.payload with
  | none => rw [hL] at h; cases h
  | some L => rw [hL] at h; cases h; rfl

/-- C2 witness: the amended statement at a concrete input. -/
theorem c2_nav_count_per_path_witness :
    enter_nav_from_rts macDefault pktRts16 navEnvZero = Except.ok macNavRts ∧
    macNavRts.stats.nav_count = macDefault.stats.nav_count + 1 ∧
    (enter_nav_random macDefault navEnvZero).stats.nav_count =
      macDefault.stats.nav_count + 1 ∧
    (defer_random macDefault navEnvZero).stats.nav_count =
      macDefault.stats.nav_count := by
  have h : enter_nav_from_rts macDefault pktRts16 navEnvZero =
      Except.ok macNavRts := by rfl
  exact ⟨h, (c2_nav_count_per_path macDefault pktRts16 navEnvZero macNavRts h).1,
    (c2_nav_count_per_path macDefault pktRts16 navEnvZero macNavRts h).2.1,
    (c2_nav_count_per_path macDefault pktRts16 navEnvZero macNavRts h).2.2⟩

/-- C3: every `send_data` call that returns `Sent` has emitted exactly one
RTS frame and exactly one DATA frame, in that order. -/
theorem c3_sent_emits_one_rts_then_one_data (mac : LoRaMAC) (d : List Nat)
    (priority : String) (e : SendEnv)
    (h : (send_data mac d priority e).2.1 = SendOutcome.sent) :
    txFrames (send_data mac d priority e).2.2 =
      [{ tag := PKT_TYPE_RTS, payload := rts_payload d.length },
       { tag := PKT_TYPE_DATA, payload := d }] :=
  (send_sent_spec mac d priority e h).2

/-- C3 witness: a quiet-channel high-priority send of `b"hi"`. -/
theorem c3_sent_emits_one_rts_then_one_data_witness :
    (send_data macDefault [104, 105] "high" envQuietTxFail).2.1 =
      SendOutcome.sent ∧
    txFrames (send_data macDefault [104, 105] "high" envQuietTxFail).2.2 =
      [{ tag := PKT_TYPE_RTS, payload := rts_payload 2 },
       { tag := PKT_TYPE_DATA, payload := [104, 105] }] :=
  ⟨by decide,
   c3_sent_emits_one_rts_then_one_data macDefault [104, 105] "high"
     envQuietTxFail (by decide)⟩

/-- C6 (counterexample): a MAC instance whose configuration violates all
three conditions (`W = -1 < 0`, `P = 3 ∉ (0,1]`, `difs_ms = -5 ≤ 0`) exists:
neither `MACConfig.__init__` nor `LoRaMAC.__init__` validates anything, so
construction succeeds instead of failing with `InvalidConfig`. -/
theorem c6_invalid_config_constructs_cex :
    (LoRaMAC.init cfgInvalid).w = -1 ∧
    (LoRaMAC.init cfgInvalid).p = 3 ∧
    (LoRaMAC.init cfgInvalid).difs = -5 ∧
    (LoRaMAC.init cfgInvalid).phase = PHASE_IDLE :=
  ⟨rfl, rfl, rfl, rfl⟩

/-- C6 (amended): construction performs no validation whatsoever — for every
configuration record, `LoRaMAC.__init__` succeeds and adopts the given
values verbatim; no `InvalidConfig` condition exists in the source. -/
theorem c6_construction_never_validates (cfg : MACConfig) :
    (LoRaMAC.init cfg).config = cfg ∧
    (LoRaMAC.init cfg).w = cfg.backoff_window ∧
    (LoRaMAC.init cfg).difs = cfg.difs_ms ∧
    (LoRaMAC.init cfg).p = cfg.phase2_probability ∧
    (LoRaMAC.init cfg).phase = PHASE_IDLE ∧
    (LoRaMAC.init cfg).phase1_duration =
      cfg.backoff_window * cfg.difs_ms + calculate_toa 5 :=
  ⟨rfl, rfl, rfl, rfl, rfl, rfl⟩

/-- C7: immediately after any `send_data` call that returns `Sent`,
`consecutive_navs` is 0, whatever its value before the call. -/
theorem c7_sent_resets_consecutive_navs (mac : LoRaMAC) (d : List Nat)
    (priority : String) (e : SendEnv)
    (h : (send_data mac d priority e).2.1 = SendOutcome.sent) :
    (send_data mac d priority e).1.consecutive_navs = 0 :=
  (send_sent_spec mac d priority e h).1

/-- C7 witness: a node five deferrals deep sends successfully and the counter
drops to 0. -/
theorem c7_sent_resets_consecutive_navs_witness :
    (send_data { macDefault with consecutive_navs := 5 } [104, 105] "high"
        envQuietTxFail).2.1 = SendOutcome.sent ∧
    (send_data { macDefault with consecutive_navs := 5 } [104, 105] "high"
        envQuietTxFail).1.consecutive_navs = 0 :=
  ⟨by decide,
   c7_sent_resets_consecutive_navs { macDefault with consecutive_navs := 5 }
     [104, 105] "high" envQuietTxFail (by decide)⟩

/-- C8: the RTS round-trip — building the 5-byte payload
`[0xCA, 0xFE, 0xBA, 0xBE, L]` and decoding it the way an observer does
(payload byte 4) yields `L` for every `L ∈ [0, 255]`. -/
theorem c8_rts_roundtrip (L : Nat) (h : L ≤ 255) :
    rts_data_len (rts_payload L) = some L := rfl

/-- C8 witness: the round-trip at the boundary value 255. -/
theorem c8_rts_roundtrip_witness :
    255 ≤ 255 ∧ rts_data_len (rts_payload 255) = some 255 :=
  ⟨by decide, c8_rts_roundtrip 255 (by decide)⟩

/-- C10: if `in_nav` holds when `send_data` is called, the call returns
`Deferred` immediately, the MAC state is byte-for-byte unchanged, and no
radio operation of any kind is issued (empty operation trace). -/
theorem c10_nav_short_circuit (mac : LoRaMAC) (d : List Nat)
    (priority : String) (e : SendEnv) (h : in_nav mac e.now0 = true) :
    send_data mac d priority e = (mac, SendOutcome.deferred, []) := by
  simp [send_data, h]

/-- C10 witness: a MAC with `nav_until = 100` polled at `now = 50`. -/
theorem c10_nav_short_circuit_witness :
    in_nav { macDefault with nav_until := 100 }
        ({ envQuietTxFail with now0 := 50 } : SendEnv).now0 = true ∧
    send_data { macDefault with nav_until := 100 } [1, 2, 3] "normal"
        { envQuietTxFail with now0 := 50 } =
      ({ macDefault with nav_until := 100 }, SendOutcome.deferred, []) :=
  ⟨by decide,
   c10_nav_short_circuit { macDefault with nav_until := 100 } [1, 2, 3]
     "normal" { envQuietTxFail with now0 := 50 } (by decide)⟩

/-- C4: arming NAV from an observed RTS announcing `data_len = L` yields
`nav_until - now ≥ phase1_duration + toa(L)`; the `W·difs` term, the prime
offset, the jitter and the congestion multiplier only add.  Hypotheses: the
node's `W` and `difs` are non-negative and `phase1_duration` is the value
`__init__` computes (invariant I4); the jitter draw is non-negative (the
source range `[int(0.05·nav), int(0.15·nav)]` only contains such values). -/
theorem c4_nav_from_rts_lower_bound (mac : LoRaMAC) (pkt : Packet)
    (e : NavEnv) (m : LoRaMAC) (L : Nat)
    (hpay : rts_data_len pkt.payload = some L)
    (hjit : 0 ≤ e.jitter)
    (hw : 0 ≤ mac.w) (hd : 0 ≤ mac.difs)
    (hp1 : mac.phase1_duration = mac.w * mac.difs + calculate_toa 5)
    (hok : enter_nav_from_rts mac pkt e = Except.ok m) :
    mac.phase1_duration + calculate_toa L ≤ m.nav_until - e.now := by
  have htoa : (0 : Int) ≤ calculate_toa L := by
    unfold calculate_toa; positivity
  have hwd : (0 : Int) ≤ mac.w * mac.difs := mul_nonneg hw hd
  have htoa5 : (0 : Int) ≤ calculate_toa 5 := by unfold calculate_toa; norm_num
  have hph : (0 : Int) ≤ mac.phase1_duration := by rw [hp1]; linarith
  have hprime : (5 : Int) ≤ primeOffset e.prime := five_le_primeOffset e.prime
  unfold enter_nav_from_rts at hok
  rw [hpay] at hok
  cases hok
  show mac.phase1_duration + calculate_toa L ≤ e.now + _ - e.now
  have hbound :
      mac.phase1_duration + calculate_toa L ≤
        mac.phase1_duration + mac.w * mac.difs + calculate_toa L +
          primeOffset e.prime + e.jitter := by linarith
  split
  · -- congestion multiplier applied: `int(nav * min(1 + 0.3·k, 2.5)) ≥ nav`
    have hN0 : (0 : Int) ≤
        mac.phase1_duration + mac.w * mac.difs + calculate_toa L +
          primeOffset e.prime + e.jitter := by linarith
    have hmul :=
      le_pyInt_mul
        (mac.phase1_duration + mac.w * mac.difs + calculate_toa L +
          primeOffset e.prime + e.jitter)
        (backoff_multiplier mac.consecutive_navs) hN0
        (one_le_backoff_multiplier mac.consecutive_navs)
    omega
  · omega

/-- C4 witness: the default node observes `CA FE BA BE 10` with the lowest
jitter draw of the source's range (`int(7184 · 0.05) = 359`). -/
theorem c4_nav_from_rts_lower_bound_witness :
    rts_data_len pktRts16.payload = some 16 ∧
    0 ≤ eC4.jitter ∧ 0 ≤ macDefault.w ∧ 0 ≤ macDefault.difs ∧
    macDefault.phase1_duration =
      macDefault.w * macDefault.difs + calculate_toa 5 ∧
    enter_nav_from_rts macDefault pktRts16 eC4 = Except.ok mC4 ∧
    macDefault.phase1_duration + calculate_toa 16 ≤ mC4.nav_until - eC4.now := by
  have hok : enter_nav_from_rts macDefault pktRts16 eC4 = Except.ok mC4 := by
    rfl
  exact ⟨rfl, by decide, by decide, by decide, by decide, hok,
    c4_nav_from_rts_lower_bound macDefault pktRts16 eC4 mC4 16 rfl (by decide)
      (by decide) (by decide) (by decide) hok⟩

/-- C5 (counterexample): `send_data` with a 256-byte payload is not rejected
cleanly at the API boundary — the call raises `ValueError` (from
`bytearray([0xCA, 0xFE, 0xBA, 0xBE, 256])`) in the middle of Phase 2, after
the backoff was slept and counted and the phase field already moved to
`PHASE_2_RTS`; no `PayloadTooLarge` condition exists in the source. -/
theorem c5_oversize_raises_mid_phase2_cex :
    (send_data macDefault (List.replicate 256 0) "high" envQuietTxFail).2.1 =
      SendOutcome.raised PyError.valueError ∧
    (send_data macDefault (List.replicate 256 0) "high"
        envQuietTxFail).1.phase = PHASE_2_RTS ∧
    (send_data macDefault (List.replicate 256 0) "high"
        envQuietTxFail).1.stats.backoff_count = 1 := by
  refine ⟨?_, ?_, ?_⟩ <;> · set_option maxRecDepth 4096 in decide

/-- C5 (amended): a 255-byte payload goes through a normal single-frame
emission (one RTS announcing length 255, one DATA frame carrying the
payload), while a payload of 256 bytes or more makes `_phase2_send_rts`
raise `ValueError` when building the RTS — after the backoff sleep and its
`backoff_count` increment, with `phase` already at `PHASE_2_RTS`, and with
no frame emitted — rather than a clean `PayloadTooLarge` rejection at the
API boundary. -/
theorem c5_payload_length_boundary (mac : LoRaMAC) (d : List Nat)
    (e : SendEnv) :
    (d.length = 255 → poll_for_packet e.phase2_events = none →
      (phase2_send_rts mac d e).2.1 = SendOutcome.sent ∧
      txFrames (phase2_send_rts mac d e).2.2 =
        [{ tag := PKT_TYPE_RTS, payload := rts_payload 255 },
         { tag := PKT_TYPE_DATA, payload := d }]) ∧
    (256 ≤ d.length →
      (phase2_send_rts mac d e).2.1 = SendOutcome.raised PyError.valueError ∧
      (phase2_send_rts mac d e).2.2 = [] ∧
      (phase2_send_rts mac d e).1.phase = PHASE_2_RTS ∧
      (phase2_send_rts mac d e).1.stats.backoff_count =
        mac.stats.backoff_count + 1) := by
  constructor
  · intro h255 hp
    have hlen : d.length ≤ 255 := by omega
    constructor
    · simp [phase2_send_rts, hlen, hp, phase3_send_data]
    · simp [phase2_send_rts, hlen, hp, phase3_send_data, txFrames, h255]
  · intro h256
    have hlen : ¬ d.length ≤ 255 := by omega
    refine ⟨?_, ?_, ?_, ?_⟩ <;> simp [phase2_send_rts, hlen]

/-- C5 witness: the amended statement at 255-byte and 256-byte payloads. -/
theorem c5_payload_length_boundary_witness :
    ((phase2_send_rts macDefault (List.replicate 255 7) envQuietTxFail).2.1 =
        SendOutcome.sent ∧
      txFrames (phase2_send_rts macDefault (List.replicate 255 7)
          envQuietTxFail).2.2 =
        [{ tag := PKT_TYPE_RTS, payload := rts_payload 255 },
         { tag := PKT_TYPE_DATA, payload := List.replicate 255 7 }]) ∧
    ((phase2_send_rts macDefault (List.replicate 256 7) envQuietTxFail).2.1 =
        SendOutcome.raised PyError.valueError ∧
      (phase2_send_rts macDefault (List.replicate 256 7)
          envQuietTxFail).2.2 = [] ∧
      (phase2_send_rts macDefault (List.replicate 256 7)
          envQuietTxFail).1.phase = PHASE_2_RTS ∧
      (phase2_send_rts macDefault (List.replicate 256 7)
          envQuietTxFail).1.stats.backoff_count =
        macDefault.stats.backoff_count + 1) :=
  ⟨(c5_payload_length_boundary macDefault (List.replicate 255 7)
      envQuietTxFail).1 (by rw [List.length_replicate]) rfl,
   (c5_payload_length_boundary macDefault (List.replicate 256 7)
      envQuietTxFail).2 (by rw [List.length_replicate])⟩

/-- C9: whenever a competing RTS or an unexpected DATA packet is observed
during the Phase 2 listen window, the call has already emitted exactly one
RTS frame and incremented `tx_rts` before returning `Deferred` — a
`Deferred` result does not imply radio silence.  (An observed RTS is assumed
well-formed: at least 5 payload bytes.) -/
theorem c9_deferred_after_phase2_rts_already_on_air (mac : LoRaMAC)
    (d : List Nat) (e : SendEnv) (pkt : Packet)
    (hlen : d.length ≤ 255)
    (hobs : poll_for_packet e.phase2_events = some pkt)
    (hwf : pkt.type = PKT_TYPE_RTS → 4 < pkt.payload.length) :
    (phase2_send_rts mac d e).2.1 = SendOutcome.deferred ∧
    txFrames (phase2_send_rts mac d e).2.2 =
      [{ tag := PKT_TYPE_RTS, payload := rts_payload d.length }] ∧
    (phase2_send_rts mac d e).1.stats.tx_rts = mac.stats.tx_rts + 1 := by
  by_cases ht : pkt.type = PKT_TYPE_RTS
  · have hlt : 4 < pkt.payload.length := hwf ht
    cases hL : rts_data_len pkt.payload with
    | none =>
        exfalso
        have := List.get?_eq_none.mp hL
        omega
    | some L =>
        refine ⟨?_, ?_, ?_⟩ <;>
          simp [phase2_send_rts, hlen, hobs, ht, enter_nav_from_rts, hL,
            txFrames]
  · refine ⟨?_, ?_, ?_⟩ <;>
      simp [phase2_send_rts, hlen, hobs, ht, enter_nav_random, txFrames]

/-- C9 witness: a competing `CA FE BA BE 10` RTS observed during the Phase 2
listen window of a quiet-start send. -/
theorem c9_deferred_after_phase2_rts_already_on_air_witness :
    ([104, 105] : List Nat).length ≤ 255 ∧
    poll_for_packet envObsRts.phase2_events = some pktRts16 ∧
    (pktRts16.type = PKT_TYPE_RTS → 4 < pktRts16.payload.length) ∧
    ((phase2_send_rts macDefault [104, 105] envObsRts).2.1 =
        SendOutcome.deferred ∧
      txFrames (phase2_send_rts macDefault [104, 105] envObsRts).2.2 =
        [{ tag := PKT_TYPE_RTS, payload := rts_payload 2 }] ∧
      (phase2_send_rts macDefault [104, 105] envObsRts).1.stats.tx_rts =
        macDefault.stats.tx_rts + 1) :=
  ⟨by decide, by decide, fun _ => by decide,
   c9_deferred_after_phase2_rts_already_on_air macDefault [104, 105] envObsRts
     pktRts16 (by decide) (by decide) (fun _ => by decide)⟩
